import Mathlib

/-!
Verification of the tt-complains core against its natural-language specification.

The development shallowly embeds the Python sources:
  - src/driver/risk_score.py        (RiskFactors, calculate_trouble_score)
  - src/driver/driver_life.py       (DriverLife: stress machine and trip loop)
  - src/graph_city/synthetic_graph.py (SyntheticGraph: backbone edges, get_path_info)

Machine reals are modelled by Lean reals; Python dataclasses by structures;
process-global random draws by explicit input streams (each stream element is
the value the corresponding numpy/random call returns); the external complaint
text generator by an oracle function.  Fallible Python code (raising) is
modelled with Except.
-/

namespace TTComplains

/-! ## Enumerations, from src/models/db_models.py -/

inductive HighwayClassification
  | HIGHWAY
  | FREEWAY
  | LOCAL
  | RURAL
deriving DecidableEq

inductive HighwayCondition
  | EXCELLENT
  | GOOD
  | FAIR
  | POOR
deriving DecidableEq

inductive HighwayDifficult
  | EASY
  | NORMAL
  | HARD
deriving DecidableEq

inductive UnloadingDifficult
  | EASY
  | NORMAL
  | HARD
deriving DecidableEq

/-! ## Risk factor tables, from src/driver/risk_score.py (class RiskFactors) -/

def HIGHWAY_CLASS_RISK : HighwayClassification → ℝ
  | .HIGHWAY => 0.2
  | .FREEWAY => 0.3
  | .LOCAL => 0.6
  | .RURAL => 0.8

def HIGHWAY_CONDITION_MULT : HighwayCondition → ℝ
  | .EXCELLENT => 0.7
  | .GOOD => 1.0
  | .FAIR => 1.3
  | .POOR => 1.8

def HIGHWAY_DIFFICULTY_MULT : HighwayDifficult → ℝ
  | .EASY => 0.8
  | .NORMAL => 1.0
  | .HARD => 1.5

def UNLOADING_DIFFICULTY_MULT : UnloadingDifficult → ℝ
  | .EASY => 0.8
  | .NORMAL => 1.0
  | .HARD => 1.4

/-- Embedding of `calculate_trouble_score` from src/driver/risk_score.py, exactly as
written there.  Its Python signature has seven parameters and in particular NO
`omit_unloading` parameter; `base_risk` defaults to 0.1 at the Python level and is
passed explicitly here. -/
noncomputable def calculate_trouble_score
    (highway_class : HighwayClassification)
    (highway_condition : HighwayCondition)
    (highway_difficulty : HighwayDifficult)
    (unloading_difficulty : UnloadingDifficult)
    (driver_experience : ℝ)
    (distance : ℝ)
    (base_risk : ℝ) : ℝ :=
  let base_class_risk := HIGHWAY_CLASS_RISK highway_class
  let condition_adjusted := base_class_risk * HIGHWAY_CONDITION_MULT highway_condition
  let difficulty_adjusted := condition_adjusted *
    (HIGHWAY_DIFFICULTY_MULT highway_difficulty * UNLOADING_DIFFICULTY_MULT unloading_difficulty)
  let experience_factor := Real.exp (-0.1 * driver_experience)
  let distance_factor := 1 + Real.log (1 + distance / 1000)
  let final_score := base_risk * difficulty_adjusted * experience_factor * distance_factor
  min 1.0 (max 0.0 final_score)

/-- The keyword parameter names accepted by `calculate_trouble_score` in
src/driver/risk_score.py (its def line, lines 38-46). -/
def calculate_trouble_score_params : List String :=
  ["highway_class", "highway_condition", "highway_difficulty", "unloading_difficulty",
   "driver_experience", "distance", "base_risk"]

/-- The keyword argument names used at the call site inside
`DriverLife._simulate_trouble` (src/driver/driver_life.py lines 165-173). -/
def simulate_trouble_call_kwargs : List String :=
  ["highway_class", "highway_condition", "highway_difficulty", "unloading_difficulty",
   "driver_experience", "distance", "omit_unloading"]

/-- Modelled from the spec: the variant of `calculate_trouble_score` that the spec
(and the call in `DriverLife._simulate_trouble`) describe, with the `omit_unloading`
parameter that is missing from src/driver/risk_score.py.  When the flag is set the
unloading multiplier is replaced by 1. -/
noncomputable def calculate_trouble_score_omit
    (highway_class : HighwayClassification)
    (highway_condition : HighwayCondition)
    (highway_difficulty : HighwayDifficult)
    (unloading_difficulty : UnloadingDifficult)
    (omit_unloading : Bool)
    (driver_experience : ℝ)
    (distance : ℝ)
    (base_risk : ℝ) : ℝ :=
  let base_class_risk := HIGHWAY_CLASS_RISK highway_class
  let condition_adjusted := base_class_risk * HIGHWAY_CONDITION_MULT highway_condition
  let difficulty_adjusted := condition_adjusted *
    (HIGHWAY_DIFFICULTY_MULT highway_difficulty *
      (if omit_unloading then 1.0 else UNLOADING_DIFFICULTY_MULT unloading_difficulty))
  let experience_factor := Real.exp (-0.1 * driver_experience)
  let distance_factor := 1 + Real.log (1 + distance / 1000)
  let final_score := base_risk * difficulty_adjusted * experience_factor * distance_factor
  min 1.0 (max 0.0 final_score)

/-! ## Stress state machine, from src/driver/driver_life.py -/

/-- Embedding of `DriverLife._calculate_stress_impact`. -/
noncomputable def calculate_stress_impact (trouble_score : ℝ) : ℝ :=
  if trouble_score < 0.01 then 0.0
  else if trouble_score ≤ 0.7 then trouble_score
  else 0.7 * 1.2

/-- The per-driver stress parameters fixed at construction
(`complain_threshold`, `quit_threshold`, `stress_decay`). -/
structure StressParams where
  complain_threshold : ℝ
  quit_threshold : ℝ
  stress_decay : ℝ

/-- The mutable stress state of a `DriverLife` (`self.stress_score`, `self.has_quit`). -/
structure StressState where
  stress_score : ℝ
  has_quit : Bool

/-- Embedding of `DriverLife._update_stress_score`: decay the stress score, add the
stress impact of the current trouble score, and derive the complain and quit flags.
Returns the new state together with `(has_complain, has_quit)`. -/
noncomputable def update_stress_score (p : StressParams) (st : StressState)
    (trouble_score : ℝ) : StressState × Bool × Bool :=
  let decayed := st.stress_score * (1 - p.stress_decay)
  let stress_impact := calculate_stress_impact trouble_score
  let new_stress := decayed + stress_impact
  let has_complain := if p.complain_threshold ≤ new_stress then true else false
  let has_quit := if p.quit_threshold ≤ new_stress then true else false
  (⟨new_stress, st.has_quit || has_quit⟩, has_complain, has_quit)

/-! ## Trip data, from src/models/driver_models.py -/

/-- Embedding of the `Trip` dataclass.  Timestamps are hours on a real line. -/
structure Trip where
  route_id : ℕ
  start_datetime : ℝ
  completion_datetime : ℝ
  on_time : Bool
  min_completion_time : ℝ
  complain : String
  assaulted : Bool
  trouble_score : ℝ
  stress_score : ℝ
  has_complain : Bool
  driver_quit : Bool

instance : Inhabited Trip := ⟨⟨0, 0, 0, false, 0, "", false, 0, 0, false, false⟩⟩

/-- One entry of the `route_data` table handed to `DriverLife` (spec section 6):
`route_id` maps to min/max completion time, distance, end node and the ordered node
path.  `intermediate_nodes` is the parsed form of the comma separated path string. -/
structure RouteData where
  min_completion_time : ℝ
  max_completion_time : ℝ
  distance : ℝ
  end_node : ℕ
  intermediate_nodes : List ℕ

/-- One row of the connection table (`connection_df`): the edge attributes read by
`_simulate_trouble` and `_simulate_assault`. -/
structure Connection where
  highway_classification : HighwayClassification
  highway_condition : HighwayCondition
  highway_difficult : HighwayDifficult
  assault_risk : ℝ

/-- Embedding of `DriverLife.get_connections`: consecutive node pairs of a path. -/
def get_connections (nodes : List ℕ) : List (ℕ × ℕ) :=
  nodes.zip nodes.tail

/-- Modelled from the spec: the loop body of `DriverLife._simulate_trouble` as the
spec describes it (the per-edge sum of trouble scores, suppressing the unloading
multiplier until an edge ends at the route's final node), using the spec-modelled
scorer `calculate_trouble_score_omit` — the scorer with the `omit_unloading`
parameter that src/driver/risk_score.py lacks.  The accumulator starts at 0 with
`omit_unloading = true`; the flag is set to false on the edge whose target is
`end_node` and is never reset afterwards, mirroring the Python assignment. -/
noncomputable def simulate_trouble_sum
    (experience path_distance : ℝ) (end_node : ℕ)
    (conn : ℕ → ℕ → Connection) (node_difficult : ℕ → UnloadingDifficult) :
    List (ℕ × ℕ) → ℝ → Bool → ℝ
  | [], acc, _ => acc
  | (s, e) :: rest, acc, omit_unloading =>
      let c := conn s e
      let omit2 := if e = end_node then false else omit_unloading
      simulate_trouble_sum experience path_distance end_node conn node_difficult rest
        (acc + calculate_trouble_score_omit c.highway_classification c.highway_condition
          c.highway_difficult (node_difficult e) omit2 experience path_distance 0.1)
        omit2

/-- Modelled from the spec: `DriverLife._simulate_trouble` with the call to the
scorer repaired as the spec describes (the `omit_unloading` keyword accepted).
An assault yields 1.0 immediately; otherwise the per-edge scores are summed and
scaled by the on-time damping factor. -/
noncomputable def simulate_trouble_fixed
    (experience : ℝ) (path : List ℕ) (path_distance : ℝ) (end_node : ℕ)
    (time_ok assaulted : Bool)
    (conn : ℕ → ℕ → Connection) (node_difficult : ℕ → UnloadingDifficult) : ℝ :=
  if assaulted then 1.0
  else
    let trouble_score :=
      simulate_trouble_sum experience path_distance end_node conn node_difficult
        (get_connections path) 0.0 true
    let on_time_factor := if time_ok then 0.8 else 1.0
    trouble_score * on_time_factor

/-- Embedding of `DriverLife._simulate_trouble` as written in
src/driver/driver_life.py.  An assault returns 1.0 before any scorer call; an empty
connection list never enters the loop, so no call is made and `0 * factor` is
returned.  Otherwise the first loop iteration invokes `calculate_trouble_score` with
the keyword arguments `simulate_trouble_call_kwargs`; Python keyword binding accepts
the call only when every keyword names a parameter of the callee
(`calculate_trouble_score_params`), and raises TypeError otherwise. -/
noncomputable def simulate_trouble
    (experience : ℝ) (path : List ℕ) (path_distance : ℝ) (end_node : ℕ)
    (time_ok assaulted : Bool)
    (conn : ℕ → ℕ → Connection) (node_difficult : ℕ → UnloadingDifficult) :
    Except String ℝ :=
  if assaulted then Except.ok 1.0
  else if (get_connections path).isEmpty then
    Except.ok (0.0 * (if time_ok then 0.8 else 1.0))
  else if simulate_trouble_call_kwargs.all (fun k => calculate_trouble_score_params.contains k) then
    Except.ok (simulate_trouble_fixed experience path path_distance end_node
      time_ok assaulted conn node_difficult)
  else
    Except.error "TypeError: calculate_trouble_score got an unexpected keyword argument omit_unloading"

/-- Embedding of `DriverLife._simulate_assault`.  `rolls` are the values returned by
the successive `random.random()` calls, one per connection; `reduction_uniform` is
the value `random.uniform(0.05, 0.20)` returns when consulted. -/
noncomputable def simulate_assault
    (conn : ℕ → ℕ → Connection) (path : List ℕ)
    (rolls : List ℝ) (reduction_uniform : ℝ) : Bool × ℝ :=
  let was_assaulted := ((get_connections path).zip rolls).any
    (fun pr => if pr.2 < (conn pr.1.1 pr.1.2).assault_risk then true else false)
  let completion_time_reduction := if was_assaulted then reduction_uniform else 0.0
  (was_assaulted, completion_time_reduction)

/-- The random draws one loop iteration of `DriverLife._simulate_trips` consumes.
Each field is the value the corresponding library call returns:
`route_choice` is the element `np.random.choice` draws from the assigned routes,
`completion_noise` the `np.random.normal(0.95, 0.1)` draw, `completion_uniform`
the `np.random.uniform(min, max)` draw, `assault_rolls` the per-edge
`random.random()` draws, `reduction_uniform` the `random.uniform(0.05, 0.20)`
draw, and `inter_trip_gap` the `np.random.exponential(1 / rate_hours)` draw. -/
structure TripRand where
  route_choice : ℕ
  completion_noise : ℝ
  completion_uniform : ℝ
  assault_rolls : List ℝ
  reduction_uniform : ℝ
  inter_trip_gap : ℝ

/-- One iteration of the `DriverLife._simulate_trips` loop body, parametrised by
the trouble computation `troubleFn` (the faithful `simulate_trouble` with the
driver's experience and tables applied, or the spec-modelled
`simulate_trouble_fixed`).  Returns the produced trip, the updated stress state,
and the next trip's start time (`completion_time` plus the inter-trip gap draw).
The decay factor is the local constant 0.5 of the source; the trip's
`driver_quit` and `trouble_score` fields record the loop-carried `has_quit` flag
and blended trouble score. -/
noncomputable def simulate_one_trip
    (troubleFn : List ℕ → ℝ → ℕ → Bool → Bool → Except String ℝ)
    (route_data : ℕ → Option RouteData)
    (conn : ℕ → ℕ → Connection)
    (p : StressParams)
    (oracle : Trip → String)
    (r : TripRand)
    (trouble_prev current_time : ℝ)
    (st : StressState) : Except String (Trip × StressState × ℝ) :=
  let route_id := r.route_choice + 1
  match route_data route_id with
  | none => Except.error "KeyError: route_id missing from route_data"
  | some rd =>
    let completion_hours := r.completion_uniform * r.completion_noise
    let completion_time0 := current_time + completion_hours
    let ar := simulate_assault conn rd.intermediate_nodes r.assault_rolls r.reduction_uniform
    let was_assaulted := ar.1
    let completion_time :=
      if was_assaulted then completion_time0 - completion_hours * ar.2 else completion_time0
    let on_time :=
      (if completion_hours ≤ rd.max_completion_time then true else false) && !was_assaulted
    match troubleFn rd.intermediate_nodes rd.distance rd.end_node on_time was_assaulted with
    | Except.error e => Except.error e
    | Except.ok raw =>
      let trouble_score := 0.2 * trouble_prev * 0.5 + 0.8 * raw
      let upd := update_stress_score p st trouble_score
      let st2 := upd.1
      let has_complain := upd.2.1
      let has_quit := upd.2.2
      let trip0 : Trip :=
        ⟨route_id, current_time, completion_time, on_time, rd.min_completion_time, "",
          was_assaulted, trouble_score, st2.stress_score, has_complain, has_quit⟩
      let trip := if has_complain then
        ⟨route_id, current_time, completion_time, on_time, rd.min_completion_time,
          oracle trip0, was_assaulted, trouble_score, st2.stress_score, has_complain,
          has_quit⟩
        else trip0
      Except.ok (trip, st2, completion_time + r.inter_trip_gap)

/-- The loop of `DriverLife._simulate_trips`.  Arguments of the recursion:
remaining iteration count, iteration index (indexing the random stream), previous
blended trouble score, current clock, stress state, and the reversed accumulator
of produced trips.  After each produced trip, the loop stops when the trip's
quit flag fired (`break`), otherwise continues with the carried trouble score and
the next start time. -/
noncomputable def simulate_trips_go
    (troubleFn : List ℕ → ℝ → ℕ → Bool → Bool → Except String ℝ)
    (route_data : ℕ → Option RouteData)
    (conn : ℕ → ℕ → Connection)
    (p : StressParams)
    (oracle : Trip → String)
    (rand : ℕ → TripRand) :
    ℕ → ℕ → ℝ → ℝ → StressState → List Trip → Except String (List Trip × StressState)
  | 0, _, _, _, st, acc => Except.ok (acc.reverse, st)
  | Nat.succ n, i, trouble_prev, current_time, st, acc =>
    match simulate_one_trip troubleFn route_data conn p oracle (rand i)
        trouble_prev current_time st with
    | Except.error e => Except.error e
    | Except.ok (trip, st2, next_time) =>
      if trip.driver_quit then Except.ok ((trip :: acc).reverse, st2)
      else simulate_trips_go troubleFn route_data conn p oracle rand n (i + 1)
        trip.trouble_score next_time st2 (trip :: acc)

/-- Embedding of `DriverLife._simulate_trips` as written: the loop above with the
faithful `simulate_trouble` of the source (whose scorer call raises TypeError).
`first_gap` is the value of the `np.random.exponential(1 / rate_hours)` draw taken
before the loop; the clock starts at `start_date + first_gap`; trouble score and
stress state start at 0. -/
noncomputable def simulate_trips
    (experience : ℝ) (number_trips : ℕ) (start_date first_gap : ℝ)
    (route_data : ℕ → Option RouteData)
    (conn : ℕ → ℕ → Connection)
    (node_difficult : ℕ → UnloadingDifficult)
    (p : StressParams)
    (oracle : Trip → String)
    (rand : ℕ → TripRand) : Except String (List Trip × StressState) :=
  simulate_trips_go
    (fun path dist en tok asl => simulate_trouble experience path dist en tok asl conn node_difficult)
    route_data conn p oracle rand
    number_trips 0 0.0 (start_date + first_gap) ⟨0.0, false⟩ []

/-- Modelled from the spec: `DriverLife._simulate_trips` with the scorer call
repaired (`simulate_trouble_fixed`), i.e. the trip loop the spec describes. -/
noncomputable def simulate_trips_fixed
    (experience : ℝ) (number_trips : ℕ) (start_date first_gap : ℝ)
    (route_data : ℕ → Option RouteData)
    (conn : ℕ → ℕ → Connection)
    (node_difficult : ℕ → UnloadingDifficult)
    (p : StressParams)
    (oracle : Trip → String)
    (rand : ℕ → TripRand) : Except String (List Trip × StressState) :=
  simulate_trips_go
    (fun path dist en tok asl => Except.ok
      (simulate_trouble_fixed experience path dist en tok asl conn node_difficult))
    route_data conn p oracle rand
    number_trips 0 0.0 (start_date + first_gap) ⟨0.0, false⟩ []

/-! ## Derived statistics, from `DriverLife._calculate_statistics` -/

/-- The keys of the Python `route_counts` dict in insertion order: distinct values
in order of first occurrence. -/
def route_counts_keys (ids : List ℕ) : List ℕ :=
  ids.foldl (fun acc k => if k ∈ acc then acc else acc ++ [k]) []

/-- Python `max(items, key=...)[0]`: scan left to right, replacing the current best
only on a strictly greater count, so the first key attaining the maximal count wins.
`max` of an empty sequence raises in Python; the source guards with `if self.trips`,
so the empty case here is never consulted (0 is a placeholder). -/
def py_max_by_count (keys : List ℕ) (cnt : ℕ → ℕ) : ℕ :=
  match keys with
  | [] => 0
  | k :: rest => rest.foldl (fun best cur => if cnt best < cnt cur then cur else best) k

/-- Embedding of the `most_common_route` computation of
`DriverLife._calculate_statistics`: the dict is keyed by `trip.route_id + 1`, so
counts, key order and the argmax are all taken over the shifted ids. -/
def most_common_route (route_ids : List ℕ) : ℕ :=
  py_max_by_count (route_counts_keys (route_ids.map (fun x => x + 1)))
    (fun k => (route_ids.map (fun x => x + 1)).count k)

/-- The same selection procedure applied to the raw trip route ids (no +1 shift):
the most frequent trip `route_id`, with Python's first-maximum tie-breaking. -/
def most_frequent_route_id (route_ids : List ℕ) : ℕ :=
  py_max_by_count (route_counts_keys route_ids) (fun k => route_ids.count k)

/-- `_calculate_statistics` sets `most_common_route` only when the trip list is
non-empty. -/
def calculate_statistics_mcr (trips : List Trip) : Option ℕ :=
  if trips.isEmpty then none
  else some (most_common_route (trips.map Trip.route_id))

/-! ## Driver construction, from `DriverLife.__init__` -/

/-- The random draws `DriverLife.__init__` consumes outside the trip loop, each
field being the value the corresponding call returns: `location_randint` from
`np.random.randint(1, number_locations + 1)`, the three normals, the route count
`np.random.randint(min_routes, max_routes + 1)`, the without-replacement sample
`np.random.choice(total_routes, size, replace=False)` (as the set iteration order
used later), the first `np.random.exponential` gap, and the per-trip streams. -/
structure InitRand where
  location_randint : ℕ
  age_normal : ℝ
  exp_normal : ℝ
  trips_normal : ℝ
  num_routes_randint : ℕ
  route_sample : List ℕ
  first_gap : ℝ
  trip_rand : ℕ → TripRand

/-- The fields a fully constructed `DriverLife` carries. -/
structure DriverState where
  driver_id : ℕ
  location_id : ℕ
  start_date : ℝ
  age : ℤ
  experience : ℤ
  assigned_routes : List ℕ
  trips : List Trip
  stress : StressState
  number_routes : ℕ
  number_trips : ℕ
  most_common_route : Option ℕ

/-- Embedding of `DriverLife.__init__` (src/driver/driver_life.py lines 17-75).
The body records the parameters, draws the driver characteristics (`int(max(...))`
is the floor of the clamped normal draw, the clamps making the values
non-negative), assigns routes, runs `_simulate_trips`, and computes the derived
statistics.  It performs no validation of the thresholds or of any other
parameter: the only failures are those `_simulate_trips` propagates. -/
noncomputable def driver_life_init
    (driver_id : ℕ) (number_locations : ℕ)
    (route_data : ℕ → Option RouteData)
    (node_difficult : ℕ → UnloadingDifficult)
    (conn : ℕ → ℕ → Connection)
    (start_date : ℝ)
    (mean_trips sd_trips mean_exp sd_exp : ℝ)
    (min_routes max_routes total_routes : ℕ)
    (rate_hours : ℝ)
    (complain_threshold quit_threshold stress_decay : ℝ)
    (R : InitRand)
    (oracle : Trip → String) : Except String DriverState :=
  let location_id := R.location_randint
  let age : ℤ := ⌊max 30.0 R.age_normal⌋
  let experience : ℤ := ⌊max 0.0 R.exp_normal⌋
  let number_trips : ℕ := (⌊max 1.0 R.trips_normal⌋).toNat
  let assigned_routes := R.route_sample
  match simulate_trips (experience : ℝ) number_trips start_date R.first_gap route_data
      conn node_difficult ⟨complain_threshold, quit_threshold, stress_decay⟩
      oracle R.trip_rand with
  | Except.error e => Except.error e
  | Except.ok (trips, st) =>
    Except.ok ⟨driver_id, location_id, start_date, age, experience, assigned_routes,
      trips, st, assigned_routes.length, trips.length, calculate_statistics_mcr trips⟩

/-! ## Synthetic graph, from src/graph_city/synthetic_graph.py -/

/-- The backbone edge list of `_create_spanning_tree`:
`[(i, (i + 1) % self.num_nodes) for i in node_list]`. -/
def spanning_edges (num_nodes : ℕ) (node_list : List ℕ) : List (ℕ × ℕ) :=
  node_list.map (fun i => (i, (i + 1) % num_nodes))

/-- Embedding of `_create_spanning_tree`: validate the node range, then extend the
edge list with the pair `(u, v), (v, u)` for every spanning edge.  (Python checks
`max(node_list) >= self.num_nodes`; on the non-empty lists the constructor passes,
that is the same as some element being out of range.) -/
def create_spanning_tree (num_nodes : ℕ) (node_list : List ℕ) :
    Except String (List (ℕ × ℕ)) :=
  if node_list.any (fun i => num_nodes ≤ i) then
    Except.error "Graph Error: Node range is out of scope"
  else
    Except.ok ((spanning_edges num_nodes node_list).flatMap (fun uv => [uv, (uv.2, uv.1)]))

/-- The backbone edges produced for the full node range, as `_create_graph` builds
them: the directed cycle `i → (i + 1) % N` together with its reverse. -/
def simple_edges (num_nodes : ℕ) : List (ℕ × ℕ) :=
  (spanning_edges num_nodes (List.range num_nodes)).flatMap (fun uv => [uv, (uv.2, uv.1)])

/-- Directed reachability over an explicit edge list. -/
inductive Reach (E : List (ℕ × ℕ)) : ℕ → ℕ → Prop
  | refl (a : ℕ) : Reach E a a
  | step : ∀ {a b c : ℕ}, Reach E a b → (b, c) ∈ E → Reach E a c

/-- Embedding of the `RouteInfo` dataclass from src/models/route_info.py (its
Python field `end` is a Lean keyword and is rendered `end_node`). -/
structure RouteInfo where
  start : ℕ
  end_node : ℕ
  path : List ℕ
  total_distance : ℝ
  total_price : ℝ

/-- The read-only view of the built graph that `get_path_info` consults: node set
and the per-edge `distance` and `price` attributes. -/
structure SynGraph where
  nodes : List ℕ
  distance : ℕ → ℕ → ℝ
  price : ℕ → ℕ → ℝ

/-- `sum(w[u][v] for u, v in zip(path, path[1:]))`. -/
noncomputable def path_sum (w : ℕ → ℕ → ℝ) (path : List ℕ) : ℝ :=
  ((path.zip path.tail).map (fun uv => w uv.1 uv.2)).sum

/-- Embedding of `SyntheticGraph.get_path_info`.  The `networkx` shortest-path
query is an oracle parameter returning the chosen path, or `none` for
`NetworkXNoPath` (in which case the Python function returns `None`).  The totals
are recomputed as the sums of the edge attributes along the returned path. -/
noncomputable def get_path_info (g : SynGraph)
    (shortest_path : ℕ → ℕ → String → Option (List ℕ))
    (start end_node : ℕ) (weight : String) : Except String (Option RouteInfo) :=
  if ((["distance", "price"] : List String).contains weight) = false then
    Except.error "Weight must be either distance or price"
  else if (g.nodes.contains start && g.nodes.contains end_node) = false then
    Except.error "Start and end nodes must exist in the graph"
  else
    match shortest_path start end_node weight with
    | none => Except.ok none
    | some path =>
      Except.ok (some ⟨start, end_node, path,
        path_sum g.distance path, path_sum g.price path⟩)

/-! ## Helper lemmas -/

theorem HIGHWAY_CLASS_RISK_nonneg (x : HighwayClassification) : 0 ≤ HIGHWAY_CLASS_RISK x := by
  cases x <;> norm_num [HIGHWAY_CLASS_RISK]

theorem HIGHWAY_CONDITION_MULT_nonneg (x : HighwayCondition) : 0 ≤ HIGHWAY_CONDITION_MULT x := by
  cases x <;> norm_num [HIGHWAY_CONDITION_MULT]

theorem HIGHWAY_DIFFICULTY_MULT_nonneg (x : HighwayDifficult) : 0 ≤ HIGHWAY_DIFFICULTY_MULT x := by
  cases x <;> norm_num [HIGHWAY_DIFFICULTY_MULT]

theorem UNLOADING_DIFFICULTY_MULT_nonneg (x : UnloadingDifficult) : 0 ≤ UNLOADING_DIFFICULTY_MULT x := by
  cases x <;> norm_num [UNLOADING_DIFFICULTY_MULT]

/-! ## C4: the per-trip stress update -/

/-- C4: each stress update first decays the stress score by `(1 - stress_decay)`
and then adds `stress_impact(trouble)`, where the impact is 0 below 0.01, the
trouble score itself on (0.01, 0.7], and the constant `0.7 * 1.2` above 0.7. -/
theorem c4_stress_update_decay_then_impact (p : StressParams) (st : StressState) (t : ℝ) :
    (update_stress_score p st t).1.stress_score
        = st.stress_score * (1 - p.stress_decay) + calculate_stress_impact t
      ∧ (t < 0.01 → calculate_stress_impact t = 0)
      ∧ (0.01 < t → t ≤ 0.7 → calculate_stress_impact t = t)
      ∧ (0.7 < t → calculate_stress_impact t = 0.7 * 1.2) := by
  refine ⟨rfl, ?_, ?_, ?_⟩
  · intro h
    rw [calculate_stress_impact, if_pos h]
    norm_num
  · intro h1 h2
    rw [calculate_stress_impact, if_neg (by linarith), if_pos h2]
  · intro h
    rw [calculate_stress_impact, if_neg (by linarith), if_neg (by linarith)]

/-- Closed instance of `c4_stress_update_decay_then_impact` at concrete inputs. -/
theorem c4_stress_update_decay_then_impact_witness :
    (update_stress_score ⟨0.7, 1.6, 0.3⟩ ⟨1, false⟩ 0.5).1.stress_score
        = (1 : ℝ) * (1 - 0.3) + calculate_stress_impact 0.5
      ∧ ((0.5 : ℝ) < 0.01 → calculate_stress_impact 0.5 = 0)
      ∧ ((0.01 : ℝ) < 0.5 → (0.5 : ℝ) ≤ 0.7 → calculate_stress_impact 0.5 = 0.5)
      ∧ ((0.7 : ℝ) < 0.5 → calculate_stress_impact 0.5 = 0.7 * 1.2) :=
  c4_stress_update_decay_then_impact ⟨0.7, 1.6, 0.3⟩ ⟨1, false⟩ 0.5

/-! ## C7: monotonicity in driver experience -/

/-- C7: the trouble score is monotonically non-increasing in driver experience,
for every choice of categorical inputs, any fixed distance, any non-negative base
risk, and any two experience values `e1 ≤ e2`. -/
theorem c7_trouble_score_antitone_in_experience
    (highway_class : HighwayClassification) (highway_condition : HighwayCondition)
    (highway_difficulty : HighwayDifficult) (unloading_difficulty : UnloadingDifficult)
    (e1 e2 distance base_risk : ℝ)
    (hbase : 0 ≤ base_risk) (h : e1 ≤ e2) :
    calculate_trouble_score highway_class highway_condition highway_difficulty
        unloading_difficulty e2 distance base_risk
      ≤ calculate_trouble_score highway_class highway_condition highway_difficulty
        unloading_difficulty e1 distance base_risk := by
  simp only [calculate_trouble_score]
  have hD : 0 ≤ HIGHWAY_CLASS_RISK highway_class * HIGHWAY_CONDITION_MULT highway_condition *
      (HIGHWAY_DIFFICULTY_MULT highway_difficulty *
        UNLOADING_DIFFICULTY_MULT unloading_difficulty) :=
    mul_nonneg (mul_nonneg (HIGHWAY_CLASS_RISK_nonneg _) (HIGHWAY_CONDITION_MULT_nonneg _))
      (mul_nonneg (HIGHWAY_DIFFICULTY_MULT_nonneg _) (UNLOADING_DIFFICULTY_MULT_nonneg _))
  have hexp : Real.exp (-0.1 * e2) ≤ Real.exp (-0.1 * e1) :=
    Real.exp_le_exp.mpr (by linarith)
  rcases le_or_lt 0 (1 + Real.log (1 + distance / 1000)) with hF | hF
  · refine min_le_min le_rfl (max_le_max le_rfl ?_)
    exact mul_le_mul_of_nonneg_right
      (mul_le_mul_of_nonneg_left hexp (mul_nonneg hbase hD)) hF
  · have hzero : ∀ e : ℝ,
        max 0.0 (base_risk * (HIGHWAY_CLASS_RISK highway_class *
            HIGHWAY_CONDITION_MULT highway_condition *
            (HIGHWAY_DIFFICULTY_MULT highway_difficulty *
              UNLOADING_DIFFICULTY_MULT unloading_difficulty)) *
          Real.exp (-0.1 * e) * (1 + Real.log (1 + distance / 1000))) = 0.0 := by
      intro e
      refine max_eq_left ?_
      have hge : 0 ≤ base_risk * (HIGHWAY_CLASS_RISK highway_class *
          HIGHWAY_CONDITION_MULT highway_condition *
          (HIGHWAY_DIFFICULTY_MULT highway_difficulty *
            UNLOADING_DIFFICULTY_MULT unloading_difficulty)) * Real.exp (-0.1 * e) :=
        mul_nonneg (mul_nonneg hbase hD) (Real.exp_pos _).le
      exact le_trans (mul_nonpos_of_nonneg_of_nonpos hge hF.le) (by norm_num)
    rw [hzero e1, hzero e2]

/-- Closed instance of `c7_trouble_score_antitone_in_experience`. -/
theorem c7_trouble_score_antitone_in_experience_witness :
    calculate_trouble_score .RURAL .POOR .HARD .HARD 2 500 0.1
      ≤ calculate_trouble_score .RURAL .POOR .HARD .HARD 1 500 0.1 :=
  c7_trouble_score_antitone_in_experience .RURAL .POOR .HARD .HARD 1 2 500 0.1
    (by norm_num) (by norm_num)

/-! ## C1: the `omit_unloading` keyword -/

/-- C1: the risk scorer of src/driver/risk_score.py does NOT accept an
`omit_unloading` parameter, yet `DriverLife._simulate_trouble` passes one as a
keyword, so every non-assaulted trouble computation over a route with at least
one edge raises TypeError instead of suppressing the unloading multiplier. -/
theorem c1_omit_unloading_keyword_rejected
    (experience path_distance : ℝ) (a b : ℕ) (path : List ℕ) (end_node : ℕ)
    (time_ok : Bool) (conn : ℕ → ℕ → Connection)
    (node_difficult : ℕ → UnloadingDifficult) :
    "omit_unloading" ∈ simulate_trouble_call_kwargs
      ∧ "omit_unloading" ∉ calculate_trouble_score_params
      ∧ simulate_trouble experience (a :: b :: path) path_distance end_node time_ok false
          conn node_difficult
        = Except.error
            "TypeError: calculate_trouble_score got an unexpected keyword argument omit_unloading" := by
  refine ⟨by decide, by decide, ?_⟩
  rw [simulate_trouble]
  rw [if_neg (by simp), if_neg (by simp [get_connections]), if_neg (by decide)]

/-! ## C3: backbone strong connectivity -/

theorem mem_simple_edges_forward {N i : ℕ} (hi : i < N) :
    (i, (i + 1) % N) ∈ simple_edges N := by
  unfold simple_edges spanning_edges
  simp only [List.mem_flatMap, List.mem_map, List.mem_range]
  exact ⟨(i, (i + 1) % N), ⟨i, hi, rfl⟩, by simp⟩

theorem mem_simple_edges_backward {N i : ℕ} (hi : i < N) :
    ((i + 1) % N, i) ∈ simple_edges N := by
  unfold simple_edges spanning_edges
  simp only [List.mem_flatMap, List.mem_map, List.mem_range]
  exact ⟨(i, (i + 1) % N), ⟨i, hi, rfl⟩, by simp⟩

theorem Reach.mono {E F : List (ℕ × ℕ)} (hEF : ∀ x ∈ E, x ∈ F) {a b : ℕ}
    (h : Reach E a b) : Reach F a b := by
  induction h with
  | refl => exact Reach.refl _
  | step h1 h2 ih => exact Reach.step ih (hEF _ h2)

theorem reach_cycle_add {N a : ℕ} (hN : 2 ≤ N) (ha : a < N) :
    ∀ k, Reach (simple_edges N) a ((a + k) % N)
  | 0 => by
      have : (a + 0) % N = a := by
        rw [Nat.add_zero]
        exact Nat.mod_eq_of_lt ha
      rw [this]
      exact Reach.refl a
  | k + 1 => by
      have hlt : (a + k) % N < N := Nat.mod_lt _ (by omega)
      have hone : (1 : ℕ) % N = 1 := Nat.mod_eq_of_lt (by omega)
      have heq : ((a + k) % N + 1) % N = (a + (k + 1)) % N := by
        calc ((a + k) % N + 1) % N = ((a + k) % N + 1 % N) % N := by rw [hone]
          _ = (a + k + 1) % N := by rw [← Nat.add_mod]
          _ = (a + (k + 1)) % N := by rw [Nat.add_assoc]
      have hstep := mem_simple_edges_forward hlt
      rw [heq] at hstep
      exact Reach.step (reach_cycle_add hN ha k) hstep

/-- C3: for every node count `N ≥ 2` the backbone of `_create_spanning_tree`
contains the edge `i → (i + 1) % N` and its reverse for every node `i`, the
full-range call validates and returns exactly these edges, and every node is
reachable from every other over the backbone together with any list of extra
random edges. -/
theorem c3_backbone_strongly_connected (N : ℕ) (extra : List (ℕ × ℕ)) (a b : ℕ)
    (hN : 2 ≤ N) (ha : a < N) (hb : b < N) :
    (∀ i, i < N → (i, (i + 1) % N) ∈ simple_edges N ∧ ((i + 1) % N, i) ∈ simple_edges N)
      ∧ create_spanning_tree N (List.range N) = Except.ok (simple_edges N)
      ∧ Reach (simple_edges N ++ extra) a b := by
  refine ⟨fun i hi => ⟨mem_simple_edges_forward hi, mem_simple_edges_backward hi⟩, ?_, ?_⟩
  · unfold create_spanning_tree simple_edges
    rw [if_neg]
    simp only [List.any_eq_true, List.mem_range, decide_eq_true_eq, not_exists, not_and]
    intro i hi
    omega
  · have key := reach_cycle_add hN ha (b + N - a)
    have harith : (a + (b + N - a)) % N = b := by
      have h1 : a + (b + N - a) = b + N := by omega
      rw [h1, Nat.add_mod_right]
      exact Nat.mod_eq_of_lt hb
    rw [harith] at key
    exact Reach.mono (fun x hx => List.mem_append_left extra hx) key

/-- Closed instance of `c3_backbone_strongly_connected`: reachability between
nodes 0 and 3 of the 5-node backbone. -/
theorem c3_backbone_strongly_connected_witness :
    Reach (simple_edges 5 ++ [(0, 3)]) 0 3 :=
  (c3_backbone_strongly_connected 5 [(0, 3)] 0 3 (by norm_num) (by norm_num)
    (by norm_num)).2.2

/-! ## C2: route totals are edge sums -/

/-- C2: every `RouteInfo` that `get_path_info` returns carries a total distance
equal to the sum of the `distance` attributes of the consecutive edges of its
path, and a total price equal to the sum of the `price` attributes, whatever
path the shortest-path oracle produced. -/
theorem c2_route_totals_are_edge_sums (g : SynGraph)
    (shortest_path : ℕ → ℕ → String → Option (List ℕ))
    (start end_node : ℕ) (weight : String) (r : RouteInfo)
    (h : get_path_info g shortest_path start end_node weight = Except.ok (some r)) :
    r.total_distance = path_sum g.distance r.path
      ∧ r.total_price = path_sum g.price r.path := by
  unfold get_path_info at h
  split at h
  · exact absurd h (by simp)
  · split at h
    · exact absurd h (by simp)
    · split at h
      · exact absurd h (by simp)
      · rw [Except.ok.injEq, Option.some.injEq] at h
        subst h
        exact ⟨rfl, rfl⟩

/-- A two-node graph with constant edge attributes, used as a concrete witness. -/
noncomputable def g0 : SynGraph := ⟨[0, 1], fun _ _ => 5, fun _ _ => 7⟩

/-- Closed instance of `c2_route_totals_are_edge_sums` on `g0` with an oracle
returning the path `[0, 1]`. -/
theorem c2_route_totals_are_edge_sums_witness :
    (⟨0, 1, [0, 1], path_sum g0.distance [0, 1], path_sum g0.price [0, 1]⟩ :
        RouteInfo).total_distance
      = path_sum g0.distance (⟨0, 1, [0, 1], path_sum g0.distance [0, 1],
          path_sum g0.price [0, 1]⟩ : RouteInfo).path
    ∧ (⟨0, 1, [0, 1], path_sum g0.distance [0, 1], path_sum g0.price [0, 1]⟩ :
        RouteInfo).total_price
      = path_sum g0.price (⟨0, 1, [0, 1], path_sum g0.distance [0, 1],
          path_sum g0.price [0, 1]⟩ : RouteInfo).path :=
  c2_route_totals_are_edge_sums g0 (fun _ _ _ => some [0, 1]) 0 1 "distance" _ rfl

/-! ## C10: the most common route statistic -/

theorem route_counts_keys_go_ne_nil (ids : List ℕ) :
    ∀ acc : List ℕ, acc ≠ [] →
      ids.foldl (fun acc k => if k ∈ acc then acc else acc ++ [k]) acc ≠ [] := by
  induction ids with
  | nil => intro acc h; exact h
  | cons x ids ih =>
      intro acc h
      simp only [List.foldl_cons]
      apply ih
      by_cases hx : x ∈ acc
      · simpa [hx] using h
      · simp [hx]

theorem route_counts_keys_ne_nil {ids : List ℕ} (h : ids ≠ []) :
    route_counts_keys ids ≠ [] := by
  cases ids with
  | nil => exact absurd rfl h
  | cons x ids =>
      unfold route_counts_keys
      simp only [List.foldl_cons, List.not_mem_nil, if_neg, List.nil_append]
      exact route_counts_keys_go_ne_nil ids [x] (by simp)

theorem mem_map_add_one (k : ℕ) (l : List ℕ) :
    k + 1 ∈ l.map (fun x => x + 1) ↔ k ∈ l := by
  simp only [List.mem_map]
  constructor
  · rintro ⟨a, ha, hak⟩
    obtain rfl : a = k := by omega
    exact ha
  · intro hk
    exact ⟨k, hk, rfl⟩

theorem route_counts_keys_map_add_one (ids : List ℕ) :
    route_counts_keys (ids.map (fun x => x + 1))
      = (route_counts_keys ids).map (fun x => x + 1) := by
  suffices h : ∀ acc : List ℕ,
      (ids.map (fun x => x + 1)).foldl
          (fun acc k => if k ∈ acc then acc else acc ++ [k]) (acc.map (fun x => x + 1))
        = (ids.foldl (fun acc k => if k ∈ acc then acc else acc ++ [k]) acc).map
            (fun x => x + 1) by
    simpa using h []
  induction ids with
  | nil => intro acc; simp
  | cons x ids ih =>
      intro acc
      simp only [List.map_cons, List.foldl_cons]
      have hstep : (if x + 1 ∈ acc.map (fun x => x + 1) then acc.map (fun x => x + 1)
            else acc.map (fun x => x + 1) ++ [x + 1])
          = (if x ∈ acc then acc else acc ++ [x]).map (fun x => x + 1) := by
        by_cases hx : x ∈ acc
        · rw [if_pos hx, if_pos ((mem_map_add_one x acc).mpr hx)]
        · rw [if_neg hx, if_neg (fun hc => hx ((mem_map_add_one x acc).mp hc)),
            List.map_append]
          rfl
      rw [hstep]
      exact ih _

theorem py_max_by_count_map_add_one (k : ℕ) (rest : List ℕ) (cnt : ℕ → ℕ) :
    py_max_by_count ((k :: rest).map (fun x => x + 1)) cnt
      = py_max_by_count (k :: rest) (fun y => cnt (y + 1)) + 1 := by
  simp only [List.map_cons, py_max_by_count]
  induction rest generalizing k with
  | nil => rfl
  | cons x rest ih =>
      simp only [List.map_cons, List.foldl_cons]
      by_cases h : cnt (k + 1) < cnt (x + 1)
      · rw [if_pos h, if_pos h]
        exact ih x
      · rw [if_neg h, if_neg h]
        exact ih k

/-- C10 (amended): `most_common_route` equals the most frequent trip `route_id`
plus one (under the same first-maximum tie-breaking), so it differs from the most
frequent route id itself — though it can still coincide with another trip's
route id. -/
theorem c10_most_common_route_shift (trips : List Trip) (h : trips ≠ []) :
    calculate_statistics_mcr trips
        = some (most_frequent_route_id (trips.map Trip.route_id) + 1)
      ∧ most_common_route (trips.map Trip.route_id)
          = most_frequent_route_id (trips.map Trip.route_id) + 1
      ∧ most_common_route (trips.map Trip.route_id)
          ≠ most_frequent_route_id (trips.map Trip.route_id) := by
  have hids : trips.map Trip.route_id ≠ [] := by
    cases trips with
    | nil => exact absurd rfl h
    | cons t ts => simp
  have hmain : most_common_route (trips.map Trip.route_id)
      = most_frequent_route_id (trips.map Trip.route_id) + 1 := by
    unfold most_common_route most_frequent_route_id
    rw [route_counts_keys_map_add_one]
    obtain ⟨k, rest, hk⟩ : ∃ k rest,
        route_counts_keys (trips.map Trip.route_id) = k :: rest := by
      cases hrck : route_counts_keys (trips.map Trip.route_id) with
      | nil => exact absurd hrck (route_counts_keys_ne_nil hids)
      | cons k rest => exact ⟨k, rest, rfl⟩
    rw [hk, py_max_by_count_map_add_one]
    have hcnt : (fun y => ((trips.map Trip.route_id).map (fun x => x + 1)).count (y + 1))
        = fun y => (trips.map Trip.route_id).count y := by
      funext y
      exact List.count_map_of_injective (trips.map Trip.route_id) (fun x => x + 1)
        (fun a b hab => Nat.add_right_cancel hab) y
    rw [hcnt]
  refine ⟨?_, hmain, by omega⟩
  unfold calculate_statistics_mcr
  rw [if_neg (by simpa [List.isEmpty_iff] using h), hmain]

/-- Closed instance of `c10_most_common_route_shift` on a one-trip driver. -/
theorem c10_most_common_route_shift_witness :
    calculate_statistics_mcr [(⟨4, 0, 0, false, 0, "", false, 0, 0, false, false⟩ : Trip)]
        = some (most_frequent_route_id
            ([(⟨4, 0, 0, false, 0, "", false, 0, 0, false, false⟩ : Trip)].map
              Trip.route_id) + 1)
      ∧ most_common_route
          ([(⟨4, 0, 0, false, 0, "", false, 0, 0, false, false⟩ : Trip)].map Trip.route_id)
          = most_frequent_route_id
              ([(⟨4, 0, 0, false, 0, "", false, 0, 0, false, false⟩ : Trip)].map
                Trip.route_id) + 1
      ∧ most_common_route
          ([(⟨4, 0, 0, false, 0, "", false, 0, 0, false, false⟩ : Trip)].map Trip.route_id)
          ≠ most_frequent_route_id
              ([(⟨4, 0, 0, false, 0, "", false, 0, 0, false, false⟩ : Trip)].map
                Trip.route_id) :=
  c10_most_common_route_shift [⟨4, 0, 0, false, 0, "", false, 0, 0, false, false⟩]
    (by simp)

/-- C10 counterexample: with trips over routes 4, 4, 5 the most frequent route id
is 4 and `most_common_route` is 5, which IS the route id recorded on the third
trip — refuting that the statistic never equals a recorded route id. -/
theorem c10_counterexample :
    calculate_statistics_mcr
        [(⟨4, 0, 0, false, 0, "", false, 0, 0, false, false⟩ : Trip),
         (⟨4, 0, 0, false, 0, "", false, 0, 0, false, false⟩ : Trip),
         (⟨5, 0, 0, false, 0, "", false, 0, 0, false, false⟩ : Trip)] = some 5
      ∧ (⟨5, 0, 0, false, 0, "", false, 0, 0, false, false⟩ : Trip).route_id = 5
      ∧ (⟨5, 0, 0, false, 0, "", false, 0, 0, false, false⟩ : Trip)
          ∈ [(⟨4, 0, 0, false, 0, "", false, 0, 0, false, false⟩ : Trip),
             (⟨4, 0, 0, false, 0, "", false, 0, 0, false, false⟩ : Trip),
             (⟨5, 0, 0, false, 0, "", false, 0, 0, false, false⟩ : Trip)] :=
  ⟨rfl, rfl, by simp⟩

/-! ## C6: termination on quit -/

theorem simulate_trips_go_length_quit
    (troubleFn : List ℕ → ℝ → ℕ → Bool → Bool → Except String ℝ)
    (route_data : ℕ → Option RouteData) (conn : ℕ → ℕ → Connection)
    (p : StressParams) (oracle : Trip → String) (rand : ℕ → TripRand) :
    ∀ (n i : ℕ) (tr time : ℝ) (st : StressState) (acc l : List Trip) (st2 : StressState),
      (∀ t ∈ acc, t.driver_quit = false) →
      simulate_trips_go troubleFn route_data conn p oracle rand n i tr time st acc
        = Except.ok (l, st2) →
      l.length ≤ n + acc.length
        ∧ (∀ j, j + 1 < l.length → (l.getD j default).driver_quit = false)
        ∧ (l.length < n + acc.length → l.getLast?.map Trip.driver_quit = some true) := by
  intro n
  induction n with
  | zero =>
      intro i tr time st acc l st2 hacc hrun
      simp only [simulate_trips_go, Except.ok.injEq, Prod.mk.injEq] at hrun
      obtain ⟨hl, -⟩ := hrun
      subst hl
      refine ⟨by simp, ?_, ?_⟩
      · intro j hj
        have hjlt : j < acc.reverse.length := by
          simp only [List.length_reverse] at hj ⊢
          omega
        rw [List.getD_eq_getElem _ _ hjlt]
        exact hacc _ (List.mem_reverse.mp (List.getElem_mem hjlt))
      · intro hlt
        simp only [List.length_reverse, Nat.zero_add] at hlt
        omega
  | succ n ih =>
      intro i tr time st acc l st2 hacc hrun
      rw [simulate_trips_go] at hrun
      rcases h1 : simulate_one_trip troubleFn route_data conn p oracle (rand i) tr time st
        with e | ⟨trip, stx, nt⟩
      · rw [h1] at hrun
        cases hrun
      · rw [h1] at hrun
        simp only [] at hrun
        by_cases hq : trip.driver_quit
        · rw [if_pos hq] at hrun
          simp only [Except.ok.injEq, Prod.mk.injEq] at hrun
          obtain ⟨hl, -⟩ := hrun
          subst hl
          rw [List.reverse_cons]
          refine ⟨by simp; omega, ?_, ?_⟩
          · intro j hj
            simp only [List.length_append, List.length_reverse, List.length_cons,
              List.length_nil] at hj
            have hjlt : j < acc.reverse.length := by simp; omega
            rw [List.getD_append _ _ _ _ hjlt, List.getD_eq_getElem _ _ hjlt]
            exact hacc _ (List.mem_reverse.mp (List.getElem_mem hjlt))
          · intro hlt
            rw [List.getLast?_concat]
            simp [hq]
        · rw [if_neg hq] at hrun
          have hacc2 : ∀ t ∈ trip :: acc, t.driver_quit = false := by
            intro t ht
            rcases List.mem_cons.mp ht with rfl | hmem
            · exact Bool.not_eq_true _ ▸ by simpa using hq
            · exact hacc t hmem
          obtain ⟨hA, hB, hC⟩ := ih (i + 1) trip.trouble_score nt stx (trip :: acc) l st2
            hacc2 hrun
          refine ⟨?_, hB, ?_⟩
          · simp only [List.length_cons] at hA
            omega
          · intro hlt
            apply hC
            simp only [List.length_cons]
            omega

/-- C6 (amended): for every successful run of the trip loop, the trip sequence
length is at most the target count; every trip except possibly the last has its
quit flag unset (once quit fires the quitting trip is the last one); and a
sequence strictly shorter than the target ends in a quitting trip.  Equality with
the target is thus compatible with a quit firing on the final trip. -/
theorem c6_quit_stops_simulation
    (experience : ℝ) (number_trips : ℕ) (start_date first_gap : ℝ)
    (route_data : ℕ → Option RouteData) (conn : ℕ → ℕ → Connection)
    (node_difficult : ℕ → UnloadingDifficult) (p : StressParams)
    (oracle : Trip → String) (rand : ℕ → TripRand) (l : List Trip) (st2 : StressState)
    (h : simulate_trips experience number_trips start_date first_gap route_data conn
        node_difficult p oracle rand = Except.ok (l, st2)) :
    l.length ≤ number_trips
      ∧ (∀ j, j + 1 < l.length → (l.getD j default).driver_quit = false)
      ∧ (l.length < number_trips → l.getLast?.map Trip.driver_quit = some true) := by
  have := simulate_trips_go_length_quit
    (fun path dist en tok asl =>
      simulate_trouble experience path dist en tok asl conn node_difficult)
    route_data conn p oracle rand number_trips 0 0.0 (start_date + first_gap)
    ⟨0.0, false⟩ [] l st2 (by intro t ht; cases ht) h
  simpa using this

/-! ## A concrete one-trip scenario

A single route 1 with the one-edge path `[1, 2]`, a constant connection table
whose assault risk is 0.05, an assault roll of 0 (so the trip is assaulted,
which makes the faithful trouble computation return 1.0 without reaching the
broken scorer call), thresholds `complain = 0.7`, `quit = 0.5`, decay 0.3, and a
target of one trip.  The run produces exactly one assaulted trip with blended
trouble 0.8 and stress 0.84, so both the complaint and the quit fire on it. -/

noncomputable def RD0 : ℕ → Option RouteData := fun r =>
  if r = 1 then some ⟨1, 2, 500, 2, [1, 2]⟩ else none

noncomputable def CONN0 : ℕ → ℕ → Connection := fun _ _ => ⟨.HIGHWAY, .GOOD, .NORMAL, 0.05⟩

def ND0 : ℕ → UnloadingDifficult := fun _ => .NORMAL

noncomputable def TR0 : TripRand := ⟨0, 1, 1, [0], 0.1, 1⟩

/-- The trip of the scenario before the complaint text is attached. -/
noncomputable def trip0_pre : Trip := ⟨1, 1, 1.9, false, 1, "", true, 0.8, 0.84, true, true⟩

/-- The trip of the scenario, with the complaint text the oracle returns. -/
noncomputable def trip0 (o : Trip → String) : Trip :=
  ⟨1, 1, 1.9, false, 1, o trip0_pre, true, 0.8, 0.84, true, true⟩

theorem simulate_one_trip_run0 (o : Trip → String) :
    simulate_one_trip
        (fun path dist en tok asl => simulate_trouble 7 path dist en tok asl CONN0 ND0)
        RD0 CONN0 ⟨0.7, 0.5, 0.3⟩ o TR0 0.0 ((0 : ℝ) + 1) ⟨0.0, false⟩
      = Except.ok (trip0 o, ⟨0.84, true⟩, 2.9) := by
  unfold simulate_one_trip
  norm_num [RD0, TR0, CONN0, ND0, simulate_assault, get_connections, simulate_trouble,
    update_stress_score, calculate_stress_impact, trip0, trip0_pre]

theorem run0_eval (o : Trip → String) :
    simulate_trips 7 1 0 1 RD0 CONN0 ND0 ⟨0.7, 0.5, 0.3⟩ o (fun _ => TR0)
      = Except.ok ([trip0 o], ⟨0.84, true⟩) := by
  unfold simulate_trips simulate_trips_go
  simp only [simulate_one_trip_run0]
  norm_num [trip0]

/-- The outer random draws of the concrete construction: home node 3, age draw
30, experience draw 7, trip count draw 1, route count draw 3, sampled routes
`[0, 2, 4]`, first inter-trip gap 1, and the one-trip stream above. -/
noncomputable def R0 : InitRand := ⟨3, 30, 7, 1, 3, [0, 2, 4], 1, fun _ => TR0⟩

/-- C6 counterexample: a one-trip target where the quit fires on that (final)
trip — the sequence length equals the target even though quit fired, refuting
that equality holds only when quit never fires. -/
theorem c6_counterexample :
    simulate_trips 7 1 0 1 RD0 CONN0 ND0 ⟨0.7, 0.5, 0.3⟩ (fun _ => "text") (fun _ => TR0)
      = Except.ok ([trip0 (fun _ => "text")], ⟨0.84, true⟩)
      ∧ [trip0 (fun _ => "text")].length = 1
      ∧ (trip0 (fun _ => "text")).driver_quit = true :=
  ⟨run0_eval _, rfl, rfl⟩

/-- Closed instance of `c6_quit_stops_simulation` on the concrete run. -/
theorem c6_quit_stops_simulation_witness :
    [trip0 (fun _ => "text")].length ≤ 1 :=
  (c6_quit_stops_simulation 7 1 0 1 RD0 CONN0 ND0 ⟨0.7, 0.5, 0.3⟩ (fun _ => "text")
    (fun _ => TR0) _ _ (run0_eval _)).1

/-! ## C5: no threshold validation at construction -/

/-- C5 (amended): `DriverLife.__init__` performs no threshold validation —
even when `quit_threshold ≤ complain_threshold`, construction is exactly trip
simulation followed by pure bookkeeping, succeeding whenever the trip loop
does. -/
theorem c5_no_threshold_validation
    (driver_id number_locations : ℕ) (route_data : ℕ → Option RouteData)
    (node_difficult : ℕ → UnloadingDifficult) (conn : ℕ → ℕ → Connection)
    (start_date mean_trips sd_trips mean_exp sd_exp : ℝ)
    (min_routes max_routes total_routes : ℕ) (rate_hours : ℝ)
    (complain_threshold quit_threshold stress_decay : ℝ)
    (R : InitRand) (oracle : Trip → String)
    (hq : quit_threshold ≤ complain_threshold) :
    driver_life_init driver_id number_locations route_data node_difficult conn start_date
        mean_trips sd_trips mean_exp sd_exp min_routes max_routes total_routes rate_hours
        complain_threshold quit_threshold stress_decay R oracle
      = (simulate_trips ((⌊max 0.0 R.exp_normal⌋ : ℤ) : ℝ) (⌊max 1.0 R.trips_normal⌋).toNat
            start_date R.first_gap route_data conn node_difficult
            ⟨complain_threshold, quit_threshold, stress_decay⟩ oracle R.trip_rand).map
          (fun pr => ⟨driver_id, R.location_randint, start_date, ⌊max 30.0 R.age_normal⌋,
            ⌊max 0.0 R.exp_normal⌋, R.route_sample, pr.1, pr.2, R.route_sample.length,
            pr.1.length, calculate_statistics_mcr pr.1⟩) := by
  unfold driver_life_init
  cases hsim : simulate_trips ((⌊max 0.0 R.exp_normal⌋ : ℤ) : ℝ)
      (⌊max 1.0 R.trips_normal⌋).toNat start_date R.first_gap route_data conn node_difficult
      ⟨complain_threshold, quit_threshold, stress_decay⟩ oracle R.trip_rand with
  | error e => simp only [hsim]; rfl
  | ok pr => cases pr; simp only [hsim]; rfl

/-- Closed instance of `c5_no_threshold_validation` with
`quit_threshold = 0.5 ≤ 0.7 = complain_threshold`. -/
theorem c5_no_threshold_validation_witness :
    driver_life_init 1 5 RD0 ND0 CONN0 0 150 20 7.5 2 3 10 50 (1 / 48) 0.7 0.5 0.3 R0
        (fun _ => "text")
      = (simulate_trips ((⌊max 0.0 R0.exp_normal⌋ : ℤ) : ℝ) (⌊max 1.0 R0.trips_normal⌋).toNat
            0 R0.first_gap RD0 CONN0 ND0 ⟨0.7, 0.5, 0.3⟩ (fun _ => "text") R0.trip_rand).map
          (fun pr => ⟨1, R0.location_randint, 0, ⌊max 30.0 R0.age_normal⌋,
            ⌊max 0.0 R0.exp_normal⌋, R0.route_sample, pr.1, pr.2, R0.route_sample.length,
            pr.1.length, calculate_statistics_mcr pr.1⟩) :=
  c5_no_threshold_validation 1 5 RD0 ND0 CONN0 0 150 20 7.5 2 3 10 50 (1 / 48) 0.7 0.5 0.3
    R0 (fun _ => "text") (by norm_num)

/-- C5 counterexample: constructing a driver with `quit_threshold = 0.5` below
`complain_threshold = 0.7` is NOT rejected — construction succeeds and one trip
is generated. -/
theorem c5_counterexample :
    (0.5 : ℝ) ≤ 0.7
      ∧ driver_life_init 1 5 RD0 ND0 CONN0 0 150 20 7.5 2 3 10 50 (1 / 48) 0.7 0.5 0.3 R0
          (fun _ => "text")
        = Except.ok ⟨1, 3, 0, 30, 7, [0, 2, 4], [trip0 (fun _ => "text")], ⟨0.84, true⟩,
            3, 1, some 2⟩ := by
  refine ⟨by norm_num, ?_⟩
  have h7z : ⌊max (0.0 : ℝ) R0.exp_normal⌋ = (7 : ℤ) := by norm_num [R0]
  have h30z : ⌊max (30.0 : ℝ) R0.age_normal⌋ = (30 : ℤ) := by norm_num [R0]
  have h1n : (⌊max (1.0 : ℝ) R0.trips_normal⌋).toNat = 1 := by norm_num [R0]
  simp only [driver_life_init, h7z, h30z, h1n]
  rw [show ((7 : ℤ) : ℝ) = 7 from by norm_num,
    show R0.first_gap = 1 from rfl, show R0.trip_rand = (fun _ => TR0) from rfl,
    run0_eval]
  simp only [R0]
  norm_num [calculate_statistics_mcr, most_common_route, route_counts_keys,
    py_max_by_count, trip0]

/-! ## C8: reproducibility -/

/-- C8 (amended): the trip loop is a deterministic function of the driver
parameters, tables, explicit random value streams and the complaint-text
collaborator: runs with equal inputs produce equal trip sequences.  (The Python
constructor takes no seed parameter; its draws come from process-global
generators, modelled here as the explicit streams.) -/
theorem c8_deterministic_given_streams_and_oracle
    (e1 e2 : ℝ) (n1 n2 : ℕ) (s1 s2 g1 g2 : ℝ)
    (rd1 rd2 : ℕ → Option RouteData) (cn1 cn2 : ℕ → ℕ → Connection)
    (nd1 nd2 : ℕ → UnloadingDifficult) (p1 p2 : StressParams)
    (o1 o2 : Trip → String) (r1 r2 : ℕ → TripRand)
    (he : e1 = e2) (hn : n1 = n2) (hs : s1 = s2) (hg : g1 = g2) (hrd : rd1 = rd2)
    (hc : cn1 = cn2) (hnd : nd1 = nd2) (hp : p1 = p2) (ho : o1 = o2) (hr : r1 = r2) :
    simulate_trips e1 n1 s1 g1 rd1 cn1 nd1 p1 o1 r1
      = simulate_trips e2 n2 s2 g2 rd2 cn2 nd2 p2 o2 r2 := by
  subst he hn hs hg hrd hc hnd hp ho hr
  rfl

/-- Closed instance of `c8_deterministic_given_streams_and_oracle` on the
concrete one-trip scenario. -/
theorem c8_deterministic_given_streams_and_oracle_witness :
    simulate_trips 7 1 0 1 RD0 CONN0 ND0 ⟨0.7, 0.5, 0.3⟩ (fun _ => "text") (fun _ => TR0)
      = simulate_trips 7 1 0 1 RD0 CONN0 ND0 ⟨0.7, 0.5, 0.3⟩ (fun _ => "text")
          (fun _ => TR0) :=
  c8_deterministic_given_streams_and_oracle 7 7 1 1 0 0 1 1 RD0 RD0 CONN0 CONN0 ND0 ND0
    ⟨0.7, 0.5, 0.3⟩ ⟨0.7, 0.5, 0.3⟩ (fun _ => "text") (fun _ => "text") (fun _ => TR0)
    (fun _ => TR0) rfl rfl rfl rfl rfl rfl rfl rfl rfl rfl

/-- C8 counterexample: with identical parameters, tables and random draws, two
runs whose external complaint-text collaborator answers differently produce
different trip sequences, so byte-identity does not follow from seed, tables and
parameters alone. -/
theorem c8_counterexample :
    simulate_trips 7 1 0 1 RD0 CONN0 ND0 ⟨0.7, 0.5, 0.3⟩ (fun _ => "a") (fun _ => TR0)
      ≠ simulate_trips 7 1 0 1 RD0 CONN0 ND0 ⟨0.7, 0.5, 0.3⟩ (fun _ => "b")
          (fun _ => TR0) := by
  rw [run0_eval, run0_eval]
  intro h
  simp only [Except.ok.injEq, Prod.mk.injEq, List.cons.injEq, trip0, Trip.mk.injEq,
    and_true, true_and] at h
  exact absurd h (by decide)

/-! ## C9: the trouble score bound

A four-edge scenario for the spec-modelled trouble pipeline: route 1 with path
`[0, 1, 2, 3, 4]`, total distance 1000, every edge RURAL/POOR/HARD, unloading
HARD at every node, assault risk 0, experience 0, a slow completion draw (so the
trip is late and undamped), and thresholds high enough that neither complaint
nor quit fires. -/

noncomputable def RD9 : ℕ → Option RouteData := fun r =>
  if r = 1 then some ⟨1, 2, 1000, 4, [0, 1, 2, 3, 4]⟩ else none

noncomputable def CONN9 : ℕ → ℕ → Connection := fun _ _ => ⟨.RURAL, .POOR, .HARD, 0⟩

def ND9 : ℕ → UnloadingDifficult := fun _ => .HARD

noncomputable def TR9 : TripRand := ⟨0, 1, 10, [1, 1, 1, 1], 0, 1⟩

/-- The per-edge score of the scenario away from the delivery node. -/
noncomputable def S9omit : ℝ :=
  calculate_trouble_score_omit .RURAL .POOR .HARD .HARD true 0 1000 (1 / 10)

/-- The per-edge score of the scenario on the edge into the delivery node. -/
noncomputable def S9full : ℝ :=
  calculate_trouble_score_omit .RURAL .POOR .HARD .HARD false 0 1000 (1 / 10)

/-- The blended trouble score the scenario's single trip stores. -/
noncomputable def trouble9 : ℝ := 4 / 5 * (S9omit + S9omit + S9omit + S9full)

theorem S9omit_eq : S9omit = 0.216 * (1 + Real.log 2) := by
  have hl1 : (0.6931471803 : ℝ) < Real.log 2 := Real.log_two_gt_d9
  have hl2 : Real.log 2 < 0.6931471808 := Real.log_two_lt_d9
  unfold S9omit calculate_trouble_score_omit
  norm_num [HIGHWAY_CLASS_RISK, HIGHWAY_CONDITION_MULT, HIGHWAY_DIFFICULTY_MULT,
    UNLOADING_DIFFICULTY_MULT, Real.exp_zero]
  rw [sup_eq_right.mpr (by nlinarith), inf_eq_right.mpr (by nlinarith)]

theorem S9full_eq : S9full = 0.3024 * (1 + Real.log 2) := by
  have hl1 : (0.6931471803 : ℝ) < Real.log 2 := Real.log_two_gt_d9
  have hl2 : Real.log 2 < 0.6931471808 := Real.log_two_lt_d9
  unfold S9full calculate_trouble_score_omit
  norm_num [HIGHWAY_CLASS_RISK, HIGHWAY_CONDITION_MULT, HIGHWAY_DIFFICULTY_MULT,
    UNLOADING_DIFFICULTY_MULT, Real.exp_zero]
  rw [sup_eq_right.mpr (by nlinarith), inf_eq_right.mpr (by nlinarith)]

theorem trouble9_gt_one : 1 < trouble9 := by
  have hl1 : (0.6931471803 : ℝ) < Real.log 2 := Real.log_two_gt_d9
  unfold trouble9
  rw [S9omit_eq, S9full_eq]
  nlinarith

theorem impact_trouble9 : calculate_stress_impact trouble9 = 0.84 := by
  have h1 := trouble9_gt_one
  unfold calculate_stress_impact
  rw [if_neg (by linarith), if_neg (by linarith)]
  norm_num

theorem run9_eval :
    simulate_trips_fixed 0 1 0 1 RD9 CONN9 ND9 ⟨10, 10, 0.3⟩ (fun _ => "x") (fun _ => TR9)
      = Except.ok ([⟨1, 1, 11, false, 1, "", false, trouble9, 0.84, false, false⟩],
          ⟨0.84, false⟩) := by
  have h84full : calculate_stress_impact (4 / 5 *
      (calculate_trouble_score_omit HighwayClassification.RURAL HighwayCondition.POOR
          HighwayDifficult.HARD UnloadingDifficult.HARD true 0 1000 (1 / 10) +
        calculate_trouble_score_omit HighwayClassification.RURAL HighwayCondition.POOR
          HighwayDifficult.HARD UnloadingDifficult.HARD true 0 1000 (1 / 10) +
        calculate_trouble_score_omit HighwayClassification.RURAL HighwayCondition.POOR
          HighwayDifficult.HARD UnloadingDifficult.HARD true 0 1000 (1 / 10) +
        calculate_trouble_score_omit HighwayClassification.RURAL HighwayCondition.POOR
          HighwayDifficult.HARD UnloadingDifficult.HARD false 0 1000 (1 / 10))) = 0.84 := by
    show calculate_stress_impact trouble9 = 0.84
    exact impact_trouble9
  unfold simulate_trips_fixed simulate_trips_go simulate_one_trip
  norm_num [RD9, TR9, CONN9, ND9, simulate_assault, get_connections, simulate_trips_go,
    simulate_trouble_fixed, simulate_trouble_sum, update_stress_score, h84full,
    trouble9, S9omit, S9full]

/-- The trouble score of the first trip of a run (0 when there is none). -/
noncomputable def first_trip_trouble (r : Except String (List Trip × StressState)) : ℝ :=
  match r with
  | Except.ok (t :: _, _) => t.trouble_score
  | _ => 0

/-- C9 counterexample: the spec-modelled trouble pipeline over a four-edge route
stores a blended per-trip trouble score strictly greater than 1 on a successful,
non-assaulted trip. -/
theorem c9_counterexample :
    (simulate_trips_fixed 0 1 0 1 RD9 CONN9 ND9 ⟨10, 10, 0.3⟩ (fun _ => "x")
        (fun _ => TR9)).isOk = true
      ∧ 1 < first_trip_trouble (simulate_trips_fixed 0 1 0 1 RD9 CONN9 ND9 ⟨10, 10, 0.3⟩
          (fun _ => "x") (fun _ => TR9)) := by
  rw [run9_eval]
  exact ⟨rfl, trouble9_gt_one⟩

theorem calculate_trouble_score_omit_nonneg
    (hc : HighwayClassification) (co : HighwayCondition) (di : HighwayDifficult)
    (un : UnloadingDifficult) (om : Bool) (e d br : ℝ) :
    0 ≤ calculate_trouble_score_omit hc co di un om e d br := by
  unfold calculate_trouble_score_omit
  exact le_min (by norm_num) (le_trans (by norm_num) (le_max_left 0.0 _))

theorem simulate_trouble_sum_nonneg (e pd : ℝ) (en : ℕ) (conn : ℕ → ℕ → Connection)
    (nd : ℕ → UnloadingDifficult) :
    ∀ (conns : List (ℕ × ℕ)) (acc : ℝ) (om : Bool), 0 ≤ acc →
      0 ≤ simulate_trouble_sum e pd en conn nd conns acc om := by
  intro conns
  induction conns with
  | nil =>
      intro acc om h
      simpa [simulate_trouble_sum] using h
  | cons x rest ih =>
      intro acc om h
      obtain ⟨s, t⟩ := x
      rw [simulate_trouble_sum]
      exact ih _ _ (add_nonneg h (calculate_trouble_score_omit_nonneg _ _ _ _ _ _ _ _))

theorem simulate_trouble_fixed_nonneg (e : ℝ) (path : List ℕ) (pd : ℝ) (en : ℕ)
    (tok asl : Bool) (conn : ℕ → ℕ → Connection) (nd : ℕ → UnloadingDifficult) :
    0 ≤ simulate_trouble_fixed e path pd en tok asl conn nd := by
  simp only [simulate_trouble_fixed]
  split
  · norm_num
  · apply mul_nonneg (simulate_trouble_sum_nonneg e pd en conn nd _ _ _ (by norm_num))
    split <;> norm_num

theorem simulate_one_trip_trouble_value
    (troubleFn : List ℕ → ℝ → ℕ → Bool → Bool → Except String ℝ)
    (route_data : ℕ → Option RouteData) (conn : ℕ → ℕ → Connection)
    (p : StressParams) (oracle : Trip → String) (r : TripRand)
    (tr time : ℝ) (st : StressState) (trip : Trip) (st2 : StressState) (nt : ℝ)
    (h : simulate_one_trip troubleFn route_data conn p oracle r tr time st
        = Except.ok (trip, st2, nt)) :
    ∃ rd raw tok asl, route_data (r.route_choice + 1) = some rd
      ∧ troubleFn rd.intermediate_nodes rd.distance rd.end_node tok asl = Except.ok raw
      ∧ trip.trouble_score = 0.2 * tr * 0.5 + 0.8 * raw := by
  simp only [simulate_one_trip] at h
  split at h
  · cases h
  · rename_i rd hrd
    split at h
    · cases h
    · rename_i raw hraw
      simp only [Except.ok.injEq, Prod.mk.injEq] at h
      obtain ⟨htrip, -, -⟩ := h
      subst htrip
      refine ⟨rd, raw, _, _, hrd, hraw, ?_⟩
      split <;> rfl

theorem simulate_trips_go_trouble_nonneg
    (troubleFn : List ℕ → ℝ → ℕ → Bool → Bool → Except String ℝ)
    (route_data : ℕ → Option RouteData) (conn : ℕ → ℕ → Connection)
    (p : StressParams) (oracle : Trip → String) (rand : ℕ → TripRand)
    (htf : ∀ path dist en tok asl raw,
      troubleFn path dist en tok asl = Except.ok raw → 0 ≤ raw) :
    ∀ (n i : ℕ) (tr time : ℝ) (st : StressState) (acc l : List Trip) (st2 : StressState),
      0 ≤ tr → (∀ t ∈ acc, 0 ≤ t.trouble_score) →
      simulate_trips_go troubleFn route_data conn p oracle rand n i tr time st acc
        = Except.ok (l, st2) →
      ∀ t ∈ l, 0 ≤ t.trouble_score := by
  intro n
  induction n with
  | zero =>
      intro i tr time st acc l st2 htr hacc hrun t ht
      simp only [simulate_trips_go, Except.ok.injEq, Prod.mk.injEq] at hrun
      obtain ⟨hl, -⟩ := hrun
      subst hl
      exact hacc t (List.mem_reverse.mp ht)
  | succ n ih =>
      intro i tr time st acc l st2 htr hacc hrun t ht
      rw [simulate_trips_go] at hrun
      rcases h1 : simulate_one_trip troubleFn route_data conn p oracle (rand i) tr time st
        with e | ⟨trip, stx, nt⟩
      · rw [h1] at hrun
        cases hrun
      · rw [h1] at hrun
        simp only [] at hrun
        obtain ⟨rd, raw, tok, asl, hrd, hraw, htv⟩ :=
          simulate_one_trip_trouble_value troubleFn route_data conn p oracle (rand i)
            tr time st trip stx nt h1
        have hraw0 : 0 ≤ raw := htf _ _ _ _ _ _ hraw
        have htrip : 0 ≤ trip.trouble_score := by
          rw [htv]
          have h02 : 0 ≤ 0.2 * tr * 0.5 :=
            mul_nonneg (mul_nonneg (by norm_num) htr) (by norm_num)
          have h08 : 0 ≤ 0.8 * raw := mul_nonneg (by norm_num) hraw0
          linarith
        by_cases hq : trip.driver_quit
        · rw [if_pos hq] at hrun
          simp only [Except.ok.injEq, Prod.mk.injEq] at hrun
          obtain ⟨hl, -⟩ := hrun
          subst hl
          rcases List.mem_cons.mp (List.mem_reverse.mp ht) with rfl | hmem
          · exact htrip
          · exact hacc t hmem
        · rw [if_neg hq] at hrun
          refine ih (i + 1) trip.trouble_score nt stx (trip :: acc) l st2 htrip ?_ hrun t ht
          intro u hu
          rcases List.mem_cons.mp hu with rfl | hm
          · exact htrip
          · exact hacc u hm

/-- C9 (amended): every trip record of a successful spec-modelled run stores a
nonnegative trouble score; the claimed upper bound 1 fails on multi-edge routes
(see the counterexample), though each per-edge score is individually clamped to
at most 1. -/
theorem c9_trouble_score_nonneg
    (experience : ℝ) (number_trips : ℕ) (start_date first_gap : ℝ)
    (route_data : ℕ → Option RouteData) (conn : ℕ → ℕ → Connection)
    (node_difficult : ℕ → UnloadingDifficult) (p : StressParams)
    (oracle : Trip → String) (rand : ℕ → TripRand) (l : List Trip) (st2 : StressState)
    (h : simulate_trips_fixed experience number_trips start_date first_gap route_data conn
        node_difficult p oracle rand = Except.ok (l, st2))
    (t : Trip) (ht : t ∈ l) : 0 ≤ t.trouble_score := by
  refine simulate_trips_go_trouble_nonneg _ route_data conn p oracle rand ?_ number_trips 0
    0.0 (start_date + first_gap) ⟨0.0, false⟩ [] l st2 (by norm_num)
    (by intro u hu; cases hu) h t ht
  intro path dist en tok asl raw hraw
  injection hraw with h2
  rw [← h2]
  exact simulate_trouble_fixed_nonneg experience path dist en tok asl conn node_difficult

/-- Closed instance of `c9_trouble_score_nonneg` on the concrete four-edge run. -/
theorem c9_trouble_score_nonneg_witness :
    0 ≤ (⟨1, 1, 11, false, 1, "", false, trouble9, 0.84, false, false⟩ : Trip).trouble_score :=
  c9_trouble_score_nonneg 0 1 0 1 RD9 CONN9 ND9 ⟨10, 10, 0.3⟩ (fun _ => "x")
    (fun _ => TR9) _ _ run9_eval _ (by simp)

end TTComplains
